import Mathlib

/-!
Verification of the page-controller pass in `example.py` of
streamlit-monaco-copilot.

The script runs one pass: it invokes the Monaco editor widget, reads back an
optional result record, extracts a candidate uuid, and — when the candidate is
present, non-empty and differs from the uuid stored in session state — writes a
new suggestion string and the candidate uuid into session state, sleeps one
second and triggers a rerun. We embed the session state as an association list
from string keys to string values, the widget result as an optional record with
optional `uuid` and `beforeCursor` fields (a Python `dict.get` on an absent key
yields no value), and the mutating branch as an explicit event trace so that
the order of effects can be stated.
-/

namespace StMonaco

/-- Session state: the host's session-scoped key/value store, embedded as an
association list from string keys to string values. -/
abbrev SessionState := List (String × String)

/-- `st.session_state.get(k)`: the value stored under `k`, if any. -/
def sget (ss : SessionState) (k : String) : Option String :=
  match ss with
  | [] => none
  | (k', v) :: rest => if k' = k then some v else sget rest k

/-- `st.session_state[k] = v`: store `v` under `k`, replacing any previous
binding and keeping every other binding. -/
def sset (ss : SessionState) (k v : String) : SessionState :=
  match ss with
  | [] => [(k, v)]
  | (k', v') :: rest => if k' = k then (k, v) :: rest else (k', v') :: sset rest k v

/-- The record the widget returns when it has something to report.  Both fields
are optional: the script accesses them with `value.get(...)`, which tolerates an
absent key. -/
structure WidgetResult where
  uuid : Option String
  beforeCursor : Option String
deriving DecidableEq

/-- Lines 18–21 of `example.py`:
`new_uuid = value['uuid'] if value and value.get('uuid') else ''`.
A `None` result, an absent `uuid` key and an empty `uuid` string all yield the
empty candidate (Python truthiness of a string is non-emptiness). -/
def newUuid : Option WidgetResult → String
  | some v =>
    match v.uuid with
    | some u => if u = "" then "" else u
    | none => ""
  | none => ""

/-- Line 11: `st.session_state.get('suggestion', '')`. -/
def suggestionRead (ss : SessionState) : String :=
  (sget ss "suggestion").getD ""

/-- Line 25: `value.get('beforeCursor', '')`. -/
def beforeCursorD : Option WidgetResult → String
  | some v => v.beforeCursor.getD ""
  | none => ""

/-- The fixed prefix of the suggestion string built on line 25. -/
def suggestionPrefix : String := "i have suggestion about this code: `"

/-- The suggestion string written on line 25:
`'i have suggestion about this code: ~' + value.get('beforeCursor', '') + '~'`
(backticks shown as `~` here). -/
def suggestionText (value : Option WidgetResult) : String :=
  suggestionPrefix ++ beforeCursorD value ++ "`"

/-- Line 24: `if value and new_uuid and new_uuid != st.session_state.get('uuid')`.
The stored uuid is read with no default, so the comparison is against an
optional value (`None` when never stored). -/
def gate (ss : SessionState) (value : Option WidgetResult) : Bool :=
  value.isSome && (newUuid value != "") && (some (newUuid value) != sget ss "uuid")

/-- The observable effects of the pass, in program order. -/
inductive Event where
  | writeSuggestion (s : String)
  | writeUuid (u : String)
  | sleep (seconds : Nat)
  | rerunCall
deriving DecidableEq

/-- How a single effect transforms the session state (sleeping and invoking the
rerun primitive leave it unchanged). -/
def applyEvent (ss : SessionState) : Event → SessionState
  | .writeSuggestion s => sset ss "suggestion" s
  | .writeUuid u => sset ss "uuid" u
  | .sleep _ => ss
  | .rerunCall => ss

/-- Replay a trace of effects over the session state. -/
def applyEvents (ss : SessionState) (es : List Event) : SessionState :=
  es.foldl applyEvent ss

/-- The effect trace of one pass: lines 25–29 run exactly when the gate is
taken, in source order — write `suggestion`, write `uuid`, `time.sleep(1)`,
`st.rerun()` — and otherwise the pass performs no effect. -/
def passTrace (ss : SessionState) (value : Option WidgetResult) : List Event :=
  if gate ss value then
    [Event.writeSuggestion (suggestionText value),
     Event.writeUuid (newUuid value),
     Event.sleep 1,
     Event.rerunCall]
  else []

/-- How a pass ends: `rerun` when `st.rerun()` aborted it, `done` when it fell
through. -/
inductive Outcome where
  | rerun
  | done
deriving DecidableEq

/-- The result of one pass: the final session state and how the pass ended. -/
structure PassResult where
  state : SessionState
  outcome : Outcome
deriving DecidableEq

/-- One pass of the page controller (lines 7–29 of `example.py`): replay the
effect trace and record whether `st.rerun()` was reached. -/
def runPass (ss : SessionState) (value : Option WidgetResult) : PassResult :=
  { state := applyEvents ss (passTrace ss value),
    outcome := if gate ss value then Outcome.rerun else Outcome.done }

/-- Iterate passes over a list of widget results (one result per rerun). -/
def runPasses (ss : SessionState) (rs : List (Option WidgetResult)) : SessionState :=
  rs.foldl (fun s r => (runPass s r).state) ss

/-- The decision gate as the spec words it: the stored uuid read defaulting to
the empty string when absent, compared against the candidate. -/
def gateDefaulted (ss : SessionState) (value : Option WidgetResult) : Bool :=
  value.isSome && (newUuid value != "") && (newUuid value != (sget ss "uuid").getD "")

/-! ### Helper lemmas about the store and the pass -/

theorem sget_sset (ss : SessionState) (k v k' : String) :
    sget (sset ss k v) k' = if k' = k then some v else sget ss k' := by
  induction ss with
  | nil =>
    simp only [sset, sget]
    rcases eq_or_ne k k' with h | h
    · subst h; simp
    · rw [if_neg h, if_neg (Ne.symm h)]
  | cons hd tl ih =>
    obtain ⟨a, b⟩ := hd
    simp only [sset]
    rcases eq_or_ne a k with hak | hak
    · subst hak
      simp only [if_pos rfl, sget]
      rcases eq_or_ne a k' with h | h
      · subst h; simp
      · rw [if_neg h, if_neg (Ne.symm h), if_neg h]
    · rw [if_neg hak]
      simp only [sget]
      rcases eq_or_ne a k' with h | h
      · subst h
        rw [if_pos rfl, if_pos rfl, if_neg hak]
      · rw [if_neg h, if_neg h, ih]

theorem sget_sset_self (ss : SessionState) (k v : String) :
    sget (sset ss k v) k = some v := by
  rw [sget_sset, if_pos rfl]

theorem sget_sset_ne (ss : SessionState) (k v k' : String) (h : k' ≠ k) :
    sget (sset ss k v) k' = sget ss k' := by
  rw [sget_sset, if_neg h]

theorem gate_eq_true_iff (ss : SessionState) (value : Option WidgetResult) :
    gate ss value = true ↔
      value.isSome ∧ newUuid value ≠ "" ∧ some (newUuid value) ≠ sget ss "uuid" := by
  simp [gate, Bool.and_eq_true, bne_iff_ne, and_assoc]

theorem runPass_of_gate_false (ss : SessionState) (value : Option WidgetResult)
    (h : gate ss value = false) :
    runPass ss value = ⟨ss, Outcome.done⟩ ∧ passTrace ss value = [] := by
  constructor
  · simp [runPass, passTrace, applyEvents, h]
  · simp [passTrace, h]

theorem runPass_of_gate_true (ss : SessionState) (value : Option WidgetResult)
    (h : gate ss value = true) :
    (runPass ss value).state =
      sset (sset ss "suggestion" (suggestionText value)) "uuid" (newUuid value) ∧
    (runPass ss value).outcome = Outcome.rerun := by
  constructor
  · simp [runPass, passTrace, applyEvents, h, applyEvent]
  · simp [runPass, h]

theorem runPass_state_uuid_of_gate_true (ss : SessionState) (value : Option WidgetResult)
    (h : gate ss value = true) :
    sget (runPass ss value).state "uuid" = some (newUuid value) := by
  rw [(runPass_of_gate_true ss value h).1, sget_sset_self]

theorem runPass_state_suggestion_of_gate_true (ss : SessionState) (value : Option WidgetResult)
    (h : gate ss value = true) :
    sget (runPass ss value).state "suggestion" = some (suggestionText value) := by
  rw [(runPass_of_gate_true ss value h).1,
    sget_sset_ne _ _ _ _ (by decide), sget_sset_self]

theorem outcome_rerun_iff_gate (ss : SessionState) (value : Option WidgetResult) :
    (runPass ss value).outcome = Outcome.rerun ↔ gate ss value = true := by
  rcases hg : gate ss value with _ | _
  · simp [runPass, hg]
  · simp [runPass, hg]

theorem newUuid_some (r : WidgetResult) (u : String) (hu : r.uuid = some u)
    (hne : u ≠ "") : newUuid (some r) = u := by
  simp [newUuid, hu, hne]

theorem gate_true_of (ss : SessionState) (r : WidgetResult) (u : String)
    (hu : r.uuid = some u) (hne : u ≠ "") (hdiff : sget ss "uuid" ≠ some u) :
    gate ss (some r) = true := by
  rw [gate_eq_true_iff]
  refine ⟨rfl, ?_, ?_⟩
  · rw [newUuid_some r u hu hne]; exact hne
  · rw [newUuid_some r u hu hne]; exact Ne.symm hdiff

/-! ### Claim theorems -/

/-- C1: for every initial session state and every widget result present with a
non-empty `uuid` differing from the stored one, the pass stores that `uuid`,
stores the suggestion `"i have suggestion about this code: ~" ++ beforeCursor
++ "~"` (backticks shown as `~`), and ends in a rerun. -/
theorem C1_fresh_uuid_mutates_and_reruns (ss : SessionState) (r : WidgetResult)
    (u bc : String) (hu : r.uuid = some u) (hne : u ≠ "")
    (hdiff : sget ss "uuid" ≠ some u) (hbc : r.beforeCursor = some bc) :
    sget (runPass ss (some r)).state "uuid" = some u ∧
    sget (runPass ss (some r)).state "suggestion" =
      some ("i have suggestion about this code: `" ++ bc ++ "`") ∧
    (runPass ss (some r)).outcome = Outcome.rerun := by
  have hg : gate ss (some r) = true := gate_true_of ss r u hu hne hdiff
  refine ⟨?_, ?_, (runPass_of_gate_true ss (some r) hg).2⟩
  · rw [runPass_state_uuid_of_gate_true ss (some r) hg, newUuid_some r u hu hne]
  · rw [runPass_state_suggestion_of_gate_true ss (some r) hg]
    simp [suggestionText, beforeCursorD, hbc, suggestionPrefix]

/-- Witness for C1 at a concrete input. -/
theorem C1_fresh_uuid_mutates_and_reruns_witness :
    sget (runPass [] (some ⟨some "abc", some "def"⟩)).state "uuid" = some "abc" ∧
    sget (runPass [] (some ⟨some "abc", some "def"⟩)).state "suggestion" =
      some ("i have suggestion about this code: `" ++ "def" ++ "`") ∧
    (runPass [] (some ⟨some "abc", some "def"⟩)).outcome = Outcome.rerun :=
  C1_fresh_uuid_mutates_and_reruns [] ⟨some "abc", some "def"⟩ "abc" "def"
    rfl (by decide) (by decide) rfl

/-- C2: if the widget result is absent, lacks a uuid, carries an empty uuid,
or carries the uuid already stored, the pass leaves the session state
unchanged, ends without a rerun, and performs no effect at all (no sleep). -/
theorem C2_stale_result_no_action (ss : SessionState) (value : Option WidgetResult)
    (h : value = none ∨
         (∃ r, value = some r ∧ (r.uuid = none ∨ r.uuid = some "")) ∨
         (∃ r u, value = some r ∧ r.uuid = some u ∧ sget ss "uuid" = some u)) :
    runPass ss value = ⟨ss, Outcome.done⟩ ∧ passTrace ss value = [] := by
  have hg : gate ss value = false := by
    rcases h with h | ⟨r, hr, h⟩ | ⟨r, u, hr, hu, hstored⟩
    · subst h; rfl
    · subst hr
      rcases h with h | h <;> simp [gate, newUuid, h]
    · subst hr
      rcases eq_or_ne u "" with he | he
      · subst he; simp [gate, newUuid, hu]
      · simp [gate, newUuid, hu, he, hstored]
  exact runPass_of_gate_false ss value hg

/-- Witness for C2 at a concrete input (duplicate uuid). -/
theorem C2_stale_result_no_action_witness :
    runPass [("uuid", "abc")] (some ⟨some "abc", some "x"⟩) =
      ⟨[("uuid", "abc")], Outcome.done⟩ ∧
    passTrace [("uuid", "abc")] (some ⟨some "abc", some "x"⟩) = [] :=
  C2_stale_result_no_action [("uuid", "abc")] (some ⟨some "abc", some "x"⟩)
    (Or.inr (Or.inr ⟨⟨some "abc", some "x"⟩, "abc", rfl, rfl, by decide⟩))

/-- C3: idempotence — if a pass mutates the session state and reruns on widget
result `R`, a second pass from the updated state with the same `R` changes
nothing and ends without a rerun. -/
theorem C3_second_pass_idempotent (ss : SessionState) (value : Option WidgetResult)
    (h : (runPass ss value).outcome = Outcome.rerun) :
    runPass (runPass ss value).state value =
      ⟨(runPass ss value).state, Outcome.done⟩ := by
  have hg : gate ss value = true := (outcome_rerun_iff_gate ss value).mp h
  have huuid : sget (runPass ss value).state "uuid" = some (newUuid value) :=
    runPass_state_uuid_of_gate_true ss value hg
  have hg2 : gate (runPass ss value).state value = false := by
    rcases hgg : gate (runPass ss value).state value with _ | _
    · rfl
    · exfalso
      have := ((gate_eq_true_iff _ value).mp hgg).2.2
      exact this huuid.symm
  exact (runPass_of_gate_false _ value hg2).1

/-- Witness for C3 at a concrete input. -/
theorem C3_second_pass_idempotent_witness :
    runPass (runPass [] (some ⟨some "abc", some "def"⟩)).state
        (some ⟨some "abc", some "def"⟩) =
      ⟨(runPass [] (some ⟨some "abc", some "def"⟩)).state, Outcome.done⟩ :=
  C3_second_pass_idempotent [] (some ⟨some "abc", some "def"⟩) (by decide)

/-- C4: Scenario B — from the empty session state, the widget result
`{uuid: "abc", beforeCursor: "def"}` produces exactly the session state
`{suggestion: "i have suggestion about this code: ~def~", uuid: "abc"}`
(backticks shown as `~`) and a rerun. -/
theorem C4_scenario_b :
    runPass [] (some ⟨some "abc", some "def"⟩) =
      ⟨[("suggestion", "i have suggestion about this code: `def`"), ("uuid", "abc")],
       Outcome.rerun⟩ := by
  decide

/-- C5: when the gate is taken but `beforeCursor` is absent or empty, the
stored suggestion is the fixed prefix immediately followed by the closing
backtick, the stored uuid becomes the candidate, and the pass reruns. -/
theorem C5_empty_beforeCursor (ss : SessionState) (r : WidgetResult)
    (hg : gate ss (some r) = true)
    (hbc : r.beforeCursor = none ∨ r.beforeCursor = some "") :
    sget (runPass ss (some r)).state "suggestion" =
      some "i have suggestion about this code: ``" ∧
    sget (runPass ss (some r)).state "uuid" = some (newUuid (some r)) ∧
    (runPass ss (some r)).outcome = Outcome.rerun := by
  refine ⟨?_, runPass_state_uuid_of_gate_true ss (some r) hg,
    (runPass_of_gate_true ss (some r) hg).2⟩
  rw [runPass_state_suggestion_of_gate_true ss (some r) hg]
  rcases hbc with h | h <;>
    simp [suggestionText, beforeCursorD, h, suggestionPrefix]

/-- Witness for C5 at a concrete input (absent `beforeCursor`). -/
theorem C5_empty_beforeCursor_witness :
    sget (runPass [] (some ⟨some "a", none⟩)).state "suggestion" =
      some "i have suggestion about this code: ``" ∧
    sget (runPass [] (some ⟨some "a", none⟩)).state "uuid" =
      some (newUuid (some ⟨some "a", none⟩)) ∧
    (runPass [] (some ⟨some "a", none⟩)).outcome = Outcome.rerun :=
  C5_empty_beforeCursor [] ⟨some "a", none⟩ (by decide) (Or.inl rfl)

/-- C6 counterexample: with no `uuid` ever stored, the value the gate reads
from session state (line 24 uses `get` with no default) is the absent marker,
not the empty string. -/
theorem C6_counterexample_uuid_read_is_absent :
    sget ([] : SessionState) "uuid" = none ∧
    sget ([] : SessionState) "uuid" ≠ some "" :=
  ⟨rfl, by decide⟩

theorem some_bne_some (a b : String) :
    ((some a : Option String) != some b) = (a != b) := by
  rcases eq_or_ne a b with h | h
  · subst h; simp
  · have h1 : ((some a : Option String) != some b) = true := by
      simp [bne_iff_ne, h]
    have h2 : (a != b) = true := bne_iff_ne.mpr h
    rw [h1, h2]

/-- C6 amended: an absent `suggestion` is read as the empty string; the stored
`uuid` is read with no default, so an absent `uuid` is read as the absent
marker rather than the empty string, but the decision gate behaves exactly as
if the absent value were the empty string. -/
theorem C6_default_reads (ss : SessionState) (value : Option WidgetResult)
    (h : sget ss "suggestion" = none) :
    suggestionRead ss = "" ∧ gate ss value = gateDefaulted ss value := by
  constructor
  · simp [suggestionRead, h]
  · rcases eq_or_ne (newUuid value) "" with he | he
    · simp [gate, gateDefaulted, he]
    · rcases hs : sget ss "uuid" with _ | s
      · simp [gate, gateDefaulted, hs, he, bne_iff_ne]
      · simp [gate, gateDefaulted, hs, some_bne_some]

/-- Witness for the amended C6 at a concrete input. -/
theorem C6_default_reads_witness :
    suggestionRead [] = "" ∧
    gate [] (some ⟨some "a", none⟩) = gateDefaulted [] (some ⟨some "a", none⟩) :=
  C6_default_reads [] (some ⟨some "a", none⟩) rfl

/-- C7: on the mutating branch the effects happen in the fixed source order —
write `suggestion`, write `uuid`, sleep, rerun — the rerun is last, nothing
follows it, and when the rerun fires the state already holds the new values. -/
theorem C7_effect_order (ss : SessionState) (value : Option WidgetResult)
    (hg : gate ss value = true) :
    passTrace ss value =
      [Event.writeSuggestion (suggestionText value), Event.writeUuid (newUuid value),
       Event.sleep 1, Event.rerunCall] ∧
    (passTrace ss value).getLast? = some Event.rerunCall ∧
    (runPass ss value).outcome = Outcome.rerun ∧
    (runPass ss value).state =
      applyEvents ss
        [Event.writeSuggestion (suggestionText value), Event.writeUuid (newUuid value)] ∧
    sget (runPass ss value).state "suggestion" = some (suggestionText value) ∧
    sget (runPass ss value).state "uuid" = some (newUuid value) := by
  have ht : passTrace ss value =
      [Event.writeSuggestion (suggestionText value), Event.writeUuid (newUuid value),
       Event.sleep 1, Event.rerunCall] := by
    simp [passTrace, hg]
  refine ⟨ht, ?_, (runPass_of_gate_true ss value hg).2, ?_,
    runPass_state_suggestion_of_gate_true ss value hg,
    runPass_state_uuid_of_gate_true ss value hg⟩
  · rw [ht]; rfl
  · rw [(runPass_of_gate_true ss value hg).1]
    simp [applyEvents, applyEvent]

/-- Witness for C7 at a concrete input. -/
theorem C7_effect_order_witness :
    passTrace [] (some ⟨some "abc", some "def"⟩) =
      [Event.writeSuggestion (suggestionText (some ⟨some "abc", some "def"⟩)),
       Event.writeUuid (newUuid (some ⟨some "abc", some "def"⟩)),
       Event.sleep 1, Event.rerunCall] ∧
    (passTrace [] (some ⟨some "abc", some "def"⟩)).getLast? = some Event.rerunCall ∧
    (runPass [] (some ⟨some "abc", some "def"⟩)).outcome = Outcome.rerun ∧
    (runPass [] (some ⟨some "abc", some "def"⟩)).state =
      applyEvents []
        [Event.writeSuggestion (suggestionText (some ⟨some "abc", some "def"⟩)),
         Event.writeUuid (newUuid (some ⟨some "abc", some "def"⟩))] ∧
    sget (runPass [] (some ⟨some "abc", some "def"⟩)).state "suggestion" =
      some (suggestionText (some ⟨some "abc", some "def"⟩)) ∧
    sget (runPass [] (some ⟨some "abc", some "def"⟩)).state "uuid" =
      some (newUuid (some ⟨some "abc", some "def"⟩)) :=
  C7_effect_order [] (some ⟨some "abc", some "def"⟩) (by decide)

/-- C8: frame property — a pass writes at most the keys `suggestion` and
`uuid`: every other key reads the same after the pass, and no key present
before the pass is absent after it. -/
theorem C8_frame (ss : SessionState) (value : Option WidgetResult) (k : String) :
    (k ≠ "suggestion" → k ≠ "uuid" → sget (runPass ss value).state k = sget ss k) ∧
    ((sget ss k).isSome = true → (sget (runPass ss value).state k).isSome = true) := by
  rcases hg : gate ss value with _ | _
  · rw [(runPass_of_gate_false ss value hg).1]
    exact ⟨fun _ _ => rfl, fun h => h⟩
  · rw [(runPass_of_gate_true ss value hg).1]
    constructor
    · intro h1 h2
      rw [sget_sset_ne _ _ _ _ h2, sget_sset_ne _ _ _ _ h1]
    · intro h
      rcases eq_or_ne k "uuid" with hk | hk
      · subst hk; rw [sget_sset_self]; rfl
      · rw [sget_sset_ne _ _ _ _ hk]
        rcases eq_or_ne k "suggestion" with hk2 | hk2
        · subst hk2; rw [sget_sset_self]; rfl
        · rw [sget_sset_ne _ _ _ _ hk2]; exact h

/-- Witness for C8 at a concrete input. -/
theorem C8_frame_witness :
    sget (runPass [("other", "v")] (some ⟨some "a", some "b"⟩)).state "other" =
      sget [("other", "v")] "other" ∧
    (sget (runPass [("other", "v")] (some ⟨some "a", some "b"⟩)).state "other").isSome
      = true :=
  ⟨(C8_frame [("other", "v")] (some ⟨some "a", some "b"⟩) "other").1
      (by decide) (by decide),
   (C8_frame [("other", "v")] (some ⟨some "a", some "b"⟩) "other").2 (by decide)⟩

theorem uuid_nonempty_preserved (ss : SessionState) (value : Option WidgetResult)
    (h : sget ss "uuid" ≠ some "") :
    sget (runPass ss value).state "uuid" ≠ some "" := by
  rcases hg : gate ss value with _ | _
  · rw [(runPass_of_gate_false ss value hg).1]; exact h
  · rw [runPass_state_uuid_of_gate_true ss value hg]
    have hne := ((gate_eq_true_iff ss value).mp hg).2.1
    simp [hne]

theorem uuid_nonempty_runPasses (rs : List (Option WidgetResult))
    (ss : SessionState) (h : sget ss "uuid" ≠ some "") :
    sget (runPasses ss rs) "uuid" ≠ some "" := by
  induction rs generalizing ss with
  | nil => exact h
  | cons r rest ih => exact ih _ (uuid_nonempty_preserved ss r h)

/-- C9: every `uuid` value the pass writes is non-empty (a rerunning pass
stores the non-empty candidate), so from any state whose stored `uuid` is
absent or non-empty, no sequence of passes ever reaches a state whose stored
`uuid` is the empty string. -/
theorem C9_uuid_never_empty (ss : SessionState) (rs : List (Option WidgetResult))
    (h : sget ss "uuid" ≠ some "") :
    (∀ (s : SessionState) (value : Option WidgetResult),
        (runPass s value).outcome = Outcome.rerun →
          sget (runPass s value).state "uuid" = some (newUuid value) ∧
          newUuid value ≠ "") ∧
    sget (runPasses ss rs) "uuid" ≠ some "" := by
  constructor
  · intro s value hr
    have hg := (outcome_rerun_iff_gate s value).mp hr
    exact ⟨runPass_state_uuid_of_gate_true s value hg,
      ((gate_eq_true_iff s value).mp hg).2.1⟩
  · exact uuid_nonempty_runPasses rs ss h

/-- Witness for C9 at a concrete input. -/
theorem C9_uuid_never_empty_witness :
    sget (runPasses [] [some ⟨some "a", some "b"⟩, none]) "uuid" ≠ some "" :=
  (C9_uuid_never_empty [] [some ⟨some "a", some "b"⟩, none] (by decide)).2

/-- C10: determinism — the pass is a function of the initial session state and
the widget result; its outcome, its effect trace and its writes depend only on
the stored `suggestion`/`uuid` entries and the result, and identical initial
states with identical results give identical passes. -/
theorem C10_deterministic (ss1 ss2 : SessionState) (value : Option WidgetResult)
    (hs : sget ss1 "suggestion" = sget ss2 "suggestion")
    (hu : sget ss1 "uuid" = sget ss2 "uuid") :
    (ss1 = ss2 → runPass ss1 value = runPass ss2 value) ∧
    (runPass ss1 value).outcome = (runPass ss2 value).outcome ∧
    passTrace ss1 value = passTrace ss2 value ∧
    sget (runPass ss1 value).state "uuid" = sget (runPass ss2 value).state "uuid" ∧
    sget (runPass ss1 value).state "suggestion" =
      sget (runPass ss2 value).state "suggestion" := by
  have hgate : gate ss1 value = gate ss2 value := by
    simp [gate, hu]
  refine ⟨fun he => he ▸ rfl, ?_, ?_, ?_, ?_⟩
  · simp [runPass, hgate]
  · simp [passTrace, hgate]
  · rcases hg : gate ss2 value with _ | _
    · rw [(runPass_of_gate_false ss1 value (hgate.trans hg)).1,
        (runPass_of_gate_false ss2 value hg).1]
      exact hu
    · rw [runPass_state_uuid_of_gate_true ss1 value (hgate.trans hg),
        runPass_state_uuid_of_gate_true ss2 value hg]
  · rcases hg : gate ss2 value with _ | _
    · rw [(runPass_of_gate_false ss1 value (hgate.trans hg)).1,
        (runPass_of_gate_false ss2 value hg).1]
      exact hs
    · rw [runPass_state_suggestion_of_gate_true ss1 value (hgate.trans hg),
        runPass_state_suggestion_of_gate_true ss2 value hg]

/-- Witness for C10 at a concrete input. -/
theorem C10_deterministic_witness :
    (runPass [("uuid", "u")] (some ⟨some "a", some "b"⟩)).outcome =
      (runPass [("uuid", "u"), ("other", "x")] (some ⟨some "a", some "b"⟩)).outcome :=
  (C10_deterministic [("uuid", "u")] [("uuid", "u"), ("other", "x")]
    (some ⟨some "a", some "b"⟩) (by decide) (by decide)).2.1

end StMonaco
